import Mathlib

/-!
Shallow embedding of the Dynamixel actuator-bus protocol layer of
`src/mbed/arm/dynamixel/MX28.cpp` (class `MX28`, the higher-resolution
actuator family), with register constants from
`src/mbed/arm/dynamixel/Dynamixel.h`.

Modelling conventions, traced from the C++ source:
* a C `char` on the target (ARM, mbed gcc) is unsigned; storing an `int`
  into a `char` keeps the value modulo 256 (`byte` below);
* a C `short` store wraps the `int` value to 16 bits in two's complement;
  `goal & 0xff` and the `char` store of `goal >> 8` together extract the
  low and high byte of that 16-bit pattern (`le16` below);
* C `int` division truncates toward zero (`Int.tdiv`);
* the serial link is modelled by its observable trace: the list of bytes
  transmitted (`sent`), the number of bytes consumed from the line
  (`received`), and the incoming byte stream `reply : Nat → Nat`
  (`reply i` is what the i-th `getc()` of the call returns);
* uninitialised C buffers are modelled by unconstrained functions
  (`garbage` for the tail of the local `Status` buffer past the bytes
  actually received, `buf` for the caller's `data` array before the call);
* the `float` expressions of the telemetry getters are rendered as exact
  rationals; on every value these claims touch the rendered arithmetic
  agrees with the single-precision evaluation.  The float-to-int cast of
  `SetCRSpeed` truncates toward zero, which on the non-negative product
  `0x3ff * abs(speed)` is `Rat.floor`.
-/

namespace MX28

/-- Value of a C `char` store on the target: the low 8 bits. -/
def byte (n : Nat) : Nat := n % 256

/-- The running `char sum` accumulator of `MX28.cpp` (`sum += TxBuf[i]`),
folded over the summed bytes; each step wraps modulo 256 as the `char`
addition does. -/
def chkSum (l : List Nat) : Nat := l.foldl (fun s b => (s + b) % 256) 0

/-- Instruction byte chosen by `MX28::write` (MX28.cpp lines 434-441):
reg-write `0x04` when `flag == 1`, plain write `0x03` otherwise. -/
def writeInstr (flag : Int) : Nat := if flag = 1 then 0x04 else 0x03

/-- Bytes `TxBuf[2..5+bytes]` of `MX28::write`: ID, length `3+bytes`,
instruction, start address, then the parameter bytes.  These are exactly
the bytes accumulated into the checksum. -/
def writeBody (id start : Nat) (data : List Nat) (flag : Int) : List Nat :=
  byte id :: byte (3 + data.length) :: writeInstr flag :: byte start :: data.map byte

/-- The full instruction packet transmitted by `MX28::write`
(MX28.cpp lines 415-472): header `0xFF 0xFF`, body, then the checksum
byte `0xFF - sum`. -/
def writePacket (id start : Nat) (data : List Nat) (flag : Int) : List Nat :=
  0xff :: 0xff :: (writeBody id start data flag ++ [0xff - chkSum (writeBody id start data flag)])

/-- Bytes `TxBuf[2..6]` of `MX28::read` (MX28.cpp lines 313-349): ID,
fixed length 4, read instruction `0x02`, start address, byte count. -/
def readBody (id start n : Nat) : List Nat :=
  [byte id, 0x04, 0x02, byte start, byte n]

/-- The full instruction packet transmitted by `MX28::read`
(MX28.cpp lines 313-360). -/
def readPacket (id start n : Nat) : List Nat :=
  0xff :: 0xff :: (readBody id start n ++ [0xff - chkSum (readBody id start n)])

/-- Bytes `TxBuf[2..4]` of `MX28::trigger` (MX28.cpp lines 182-202):
broadcast ID `0xFE`, length 2, action instruction `0x04`. -/
def triggerBody : List Nat := [0xFE, 0x02, 0x04]

/-- The full packet transmitted by `MX28::trigger` (MX28.cpp lines
182-216); no reply is read afterwards. -/
def triggerPacket : List Nat :=
  0xff :: 0xff :: (triggerBody ++ [0xff - chkSum triggerBody])

/-- Observable outcome of one `MX28::write` call. -/
structure WriteResult where
  sent : List Nat
  received : Nat
  ret : Nat
deriving DecidableEq

/-- `MX28::write` (MX28.cpp lines 399-502).  `selfID` is the member
`_ID`; `id` is the `ID` argument placed in the packet.  After the
transmission, `Status[4]` is preset to `0x00`; only when `_ID != 0xFE`
are six reply bytes consumed, overwriting `Status[0..5]`.  The return
value is `Status[4]`. -/
def write (selfID id start : Nat) (data : List Nat) (flag : Int)
    (reply : Nat → Nat) : WriteResult :=
  if selfID ≠ 0xFE then
    ⟨writePacket id start data flag, 6, byte (reply 4)⟩
  else
    ⟨writePacket id start data flag, 0, 0x00⟩

/-- Observable outcome of one `MX28::read` call.  `dataOut` is the
caller's `data` buffer after the call. -/
structure ReadResult where
  sent : List Nat
  received : Nat
  dataOut : Nat → Nat
  ret : Nat

/-- `MX28::read` (MX28.cpp lines 295-396).  `Status[4]` is preset to
`0xFE`.  Only when `_ID != 0xFE` are `6 + bytes` reply bytes consumed
into `Status`, after which `Status[3] - 2` bytes starting at `Status[5]`
are copied into the caller's buffer (C `char` is unsigned here, so when
`Status[3] < 2` the copy count is non-positive and nothing is copied,
as with `Nat` subtraction).  The return value is `Status[4]`. -/
def read (selfID id start n : Nat) (garbage buf reply : Nat → Nat) : ReadResult :=
  if selfID ≠ 0xFE then
    let status : Nat → Nat := fun i => if i < 6 + n then byte (reply i) else garbage i
    let count := status 3 - 2
    ⟨readPacket id start n, 6 + n,
      fun i => if i < count then status (5 + i) else buf i, status 4⟩
  else
    ⟨readPacket id start n, 0, buf, 0xFE⟩

/-- `short goal = (4095 * degrees) / 360;` of `MX28::SetGoal`
(MX28.cpp line 65) and of `SetCWLimit`/`SetCCWLimit` (lines 113, 133):
C `int` division truncating toward zero. -/
def goalRaw (degrees : Int) : Int := (4095 * degrees).tdiv 360

/-- The 16-bit two's-complement pattern of a C `short` holding `v`. -/
def toUInt16 (v : Int) : Nat := (v.emod 65536).toNat

/-- `data[0] = goal & 0xff; data[1] = goal >> 8;` for a C `short goal`
(MX28.cpp lines 70-71): low byte then high byte of the 16-bit pattern. -/
def le16 (v : Int) : List Nat := [toUInt16 v % 256, toUInt16 v / 256]

/-- Outcome of one `MX28::SetGoal` call: the packet transmitted by the
inner `write`, whether the busy-wait `while (isMoving()) {}` loop is
entered, and the returned error code. -/
structure SetGoalResult where
  sent : List Nat
  blocks : Bool
  ret : Nat

/-- `MX28::SetGoal` (MX28.cpp lines 54-81): `reg_flag` is 1 exactly when
`flags == 0x2`; the goal is written to register `MX28_REG_GOAL_POSITION`
(`0x1E`); the busy-wait loop runs exactly when `flags == 1`. -/
def SetGoal (selfID : Nat) (degrees flags : Int) (reply : Nat → Nat) : SetGoalResult :=
  let reg_flag : Int := if flags = 2 then 1 else 0
  let w := write selfID selfID 0x1E (le16 (goalRaw degrees)) reg_flag reply
  ⟨w.sent, flags == 1, w.ret⟩

/-- `int goal = (0x3ff * abs(speed));` then `goal |= (0x1 << 10);` when
`speed < 0` (MX28.cpp lines 91-96).  The float product is rendered as an
exact rational; the int cast truncates toward zero, i.e. `Rat.floor` of
the non-negative product. -/
def crSpeedRaw (s : ℚ) : Nat :=
  let g := (Rat.floor (0x3ff * |s|)).toNat
  if s < 0 then g ||| (1 <<< 10) else g

/-- `data[0] = goal & 0xff; data[1] = goal >> 8;` of `MX28::SetCRSpeed`
(MX28.cpp lines 98-99), `goal` being a non-negative C `int`. -/
def crSpeedData (s : ℚ) : List Nat := [byte (crSpeedRaw s), byte (crSpeedRaw s >>> 8)]

/-- One `write(_ID, start, bytes, data, flag)` call as issued by the
high-level setters: start register, parameter bytes, reg-write flag. -/
structure WOp where
  start : Nat
  data : List Nat
  flag : Int
deriving DecidableEq

/-- `MX28::SetCWLimit` (MX28.cpp lines 108-125): writes the scaled limit
to `MX28_REG_CW_LIMIT` (`0x06`) with the default flag 0. -/
def SetCWLimitOp (degrees : Int) : WOp := ⟨0x06, le16 (goalRaw degrees), 0⟩

/-- `MX28::SetCCWLimit` (MX28.cpp lines 128-144): writes the scaled
limit to `MX28_REG_CCW_LIMIT` (`0x08`) with the default flag 0. -/
def SetCCWLimitOp (degrees : Int) : WOp := ⟨0x08, le16 (goalRaw degrees), 0⟩

/-- `MX28::SetCRSpeed` (MX28.cpp lines 85-105): writes the speed word to
register `0x20` with the default flag 0. -/
def SetCRSpeedOp (s : ℚ) : WOp := ⟨0x20, crSpeedData s, 0⟩

/-- `MX28::SetMode` (MX28.cpp lines 36-48): the sequence of register
writes it issues and its return value, which is the literal 0. -/
def SetMode (mode : Int) : List WOp × Int :=
  if mode = 1 then
    ([SetCWLimitOp 0, SetCCWLimitOp 0, SetCRSpeedOp 0], 0)
  else
    ([SetCWLimitOp 0, SetCCWLimitOp 360, SetCRSpeedOp 0], 0)

/-- Sign-extension of a 16-bit pattern: the value a C `short` holds
after `short position = data[0] + (data[1] << 8);` (MX28.cpp line 233). -/
def toInt16 (u : Nat) : Int :=
  if u % 65536 < 32768 then (u % 65536 : Int) else (u % 65536 : Int) - 65536

/-- `float angle = (position * 300)/1024;` (MX28.cpp line 234): C `int`
arithmetic (truncating division) whose result is converted to `float`
exactly. -/
def positionDecode (lo hi : Nat) : Int :=
  (toInt16 (byte lo + 256 * byte hi) * 300).tdiv 1024

/-- `MX28::GetPosition` (MX28.cpp lines 224-237): reads 2 bytes from
register `MX28_REG_POSITION` (`0x24`) and decodes them; the local
`ErrorCode` is never used. -/
def GetPosition (selfID : Nat) (garbage buf reply : Nat → Nat) : Int :=
  let r := read selfID selfID 0x24 2 garbage buf reply
  positionDecode (r.dataOut 0) (r.dataOut 1)

/-- `MX28::GetTemp` (MX28.cpp lines 240-249): reads 1 byte from
`MX28_REG_TEMP` (`0x2B`) and returns it as a float; the local
`ErrorCode` is never used. -/
def GetTemp (selfID : Nat) (garbage buf reply : Nat → Nat) : ℚ :=
  let r := read selfID selfID 0x2B 1 garbage buf reply
  (byte (r.dataOut 0) : ℚ)

/-- `MX28::GetVolts` (MX28.cpp lines 252-261): reads 1 byte from
`MX28_REG_VOLTS` (`0x2A`) and returns `data[0]/10.0`; the local
`ErrorCode` is never used. -/
def GetVolts (selfID : Nat) (garbage buf reply : Nat → Nat) : ℚ :=
  let r := read selfID selfID 0x2A 1 garbage buf reply
  (byte (r.dataOut 0) : ℚ) / 10

/-- `MX28::GetCurrent` (MX28.cpp lines 264-273): reads 2 bytes from
`MX28_REG_CURRENT` (`0x44`) and returns
`((data[0]+(data[1] << 8))-0x8FF)*0.0045` (all in `int` before the
float multiply; `0.0045 = 9/2000`); the local `ErrorCode` is never
used. -/
def GetCurrent (selfID : Nat) (garbage buf reply : Nat → Nat) : ℚ :=
  let r := read selfID selfID 0x44 2 garbage buf reply
  ((byte (r.dataOut 0) + 256 * byte (r.dataOut 1) : Int) - 0x8FF) * (9 / 2000 : ℚ)

/-- The status reply `FF FF 01 02 00 FC` of the C1 scenario (error code
0, checksum `0xFF - (1+2+0)`), as the incoming byte stream. -/
def statusOKReply : Nat → Nat := fun i => [0xFF, 0xFF, 0x01, 0x02, 0x00, 0xFC].getD i 0

end MX28

/-! Helper lemmas. -/

theorem ratFloor_eq (q : ℚ) : Rat.floor q = ⌊q⌋ := rfl

theorem foldl_mod_add (l : List Nat) :
    ∀ a, a < 256 → l.foldl (fun s b => (s + b) % 256) a = (a + l.sum) % 256 := by
  induction l with
  | nil => intro a ha; simp [Nat.mod_eq_of_lt ha]
  | cons x xs ih =>
    intro a ha
    simp only [List.foldl_cons, List.sum_cons]
    rw [ih ((a + x) % 256) (Nat.mod_lt _ (by norm_num)), Nat.mod_add_mod]
    omega

theorem chkSum_eq (l : List Nat) : MX28.chkSum l = l.sum % 256 := by
  simpa using foldl_mod_add l 0 (by norm_num)

theorem getLast!_append_single (l : List Nat) (c : Nat) : (l ++ [c]).getLast! = c :=
  List.getLast!_of_getLast? (List.getLast?_concat l)

theorem packet_checksum_aux (body : List Nat) :
    (0xff :: 0xff :: (body ++ [0xff - MX28.chkSum body])).getLast! =
      0xff - ((0xff :: 0xff :: (body ++ [0xff - MX28.chkSum body])).drop 2).dropLast.sum % 256 ∧
    ((0xff : Int) - (0xff :: 0xff :: (body ++ [0xff - MX28.chkSum body])).getLast!
      - ((0xff :: 0xff :: (body ++ [0xff - MX28.chkSum body])).drop 2).dropLast.sum) % 256 = 0 := by
  have hdrop : (0xff :: 0xff :: (body ++ [0xff - MX28.chkSum body])).drop 2 =
      body ++ [0xff - MX28.chkSum body] := rfl
  have hlast : (0xff :: 0xff :: (body ++ [0xff - MX28.chkSum body])).getLast! =
      0xff - MX28.chkSum body := by
    rw [show (0xff :: 0xff :: (body ++ [0xff - MX28.chkSum body])) =
      (0xff :: 0xff :: body) ++ [0xff - MX28.chkSum body] by simp]
    exact getLast!_append_single _ _
  rw [hdrop, hlast, List.dropLast_concat, chkSum_eq]
  constructor
  · rfl
  · have h := Nat.mod_lt body.sum (show 0 < 256 by norm_num)
    omega

theorem crSpeedRaw_zero : MX28.crSpeedRaw 0 = 0 := by
  simp [MX28.crSpeedRaw, ratFloor_eq]

theorem crSpeedRaw_at_cex : MX28.crSpeedRaw (511/1024) = 510 := by
  have habs : |(511/1024 : ℚ)| = 511/1024 := abs_of_nonneg (by norm_num)
  have hfl : ⌊(1023 : ℚ) * (511/1024)⌋ = 510 := by
    rw [show (1023 : ℚ) * (511/1024) = 522753/1024 by norm_num]
    norm_num [Int.floor_eq_iff]
  simp only [MX28.crSpeedRaw, ratFloor_eq, habs]
  rw [if_neg (by norm_num)]
  norm_num [hfl]
  decide

set_option maxRecDepth 4000 in
theorem crSpeedRaw_neg_one : MX28.crSpeedRaw (-1) = 2047 := by
  have habs : |(-1 : ℚ)| = 1 := by norm_num
  have hfl : ⌊(1023 : ℚ) * 1⌋ = 1023 := by norm_num
  simp only [MX28.crSpeedRaw, ratFloor_eq, habs]
  rw [if_pos (by norm_num)]
  norm_num [hfl]
  decide

theorem crSpeedRaw_half : MX28.crSpeedRaw (1/2) = 511 := by
  have habs : |(1/2 : ℚ)| = 1/2 := abs_of_nonneg (by norm_num)
  have hfl : ⌊(1023 : ℚ) * (1/2)⌋ = 511 := by
    rw [show (1023 : ℚ) * (1/2) = 1023/2 by norm_num]
    norm_num [Int.floor_eq_iff]
  simp only [MX28.crSpeedRaw, ratFloor_eq, habs]
  rw [if_neg (by norm_num)]
  norm_num [hfl]
  decide

set_option maxRecDepth 100000 in
theorem bits_small : ∀ g, g < 1024 →
    (g ||| 1024) &&& 1023 = g ∧ g &&& 1023 = g ∧
    (g ||| 1024).testBit 10 = true ∧ g.testBit 10 = false := by decide

set_option maxRecDepth 4000 in
theorem round_enc_at_5 : round ((4095 * 5 : ℚ) / 360) = 57 := by
  rw [round_eq]
  norm_num

set_option maxRecDepth 4000 in
theorem round_speed_at_cex : round ((0x3ff : ℚ) * |(511/1024 : ℚ)|) = 511 := by
  rw [abs_of_nonneg (by norm_num : (0:ℚ) ≤ 511/1024)]
  rw [round_eq]
  norm_num

theorem read_dataOut_congr (selfID id start n : Nat) (garbage buf r r2 : Nat → Nat)
    (h : ∀ i, i ≠ 4 → r i = r2 i) :
    (MX28.read selfID id start n garbage buf r).dataOut =
      (MX28.read selfID id start n garbage buf r2).dataOut := by
  have hst : ∀ j, j ≠ 4 →
      (if j < 6 + n then MX28.byte (r j) else garbage j) =
        (if j < 6 + n then MX28.byte (r2 j) else garbage j) := by
    intro j hj
    by_cases hlt : j < 6 + n <;> simp [hlt, h j hj]
  by_cases hs : selfID ≠ 0xFE
  · simp only [MX28.read, if_pos hs]
    funext i
    rw [hst 3 (by omega)]
    by_cases hc : i < (if 3 < 6 + n then MX28.byte (r2 3) else garbage 3) - 2
    · simp only [if_pos hc]
      exact hst (5 + i) (by omega)
    · simp only [if_neg hc]
  · simp only [MX28.read, if_neg hs]

/-! Claim theorems. -/

/-- C1 counterexample: `SetGoal(150)` on device ID 1 transmits the raw
goal 1706 = `(4095*150)/360` (bytes `AA 06`, checksum `28`), not the
little-endian encoding of 2047 (bytes `FF 07`, checksum `D2`) stated by
the claim. -/
theorem c1_counterexample :
    (MX28.SetGoal 1 150 0 MX28.statusOKReply).sent =
      [0xFF, 0xFF, 0x01, 0x05, 0x03, 0x1E, 0xAA, 0x06, 0x28] ∧
    (0xAA + 256 * 0x06 : Nat) = 1706 ∧
    (0xFF + 256 * 0x07 : Nat) = 2047 ∧
    (MX28.SetGoal 1 150 0 MX28.statusOKReply).sent ≠
      [0xFF, 0xFF, 0x01, 0x05, 0x03, 0x1E, 0xFF, 0x07, 0xD2] := by decide

/-- C1 amended: `SetGoal(150)` on device ID 1, non-blocking and
non-staged, transmits exactly `FF FF 01 05 03 1E AA 06 28`, whose
parameter bytes are the little-endian encoding of 1706 =
`(4095*150)/360`, and the status reply `FF FF 01 02 00 FC` decodes to
error code 0 returned to the caller. -/
theorem c1_amended :
    MX28.goalRaw 150 = 1706 ∧
    (MX28.SetGoal 1 150 0 MX28.statusOKReply).sent =
      [0xFF, 0xFF, 0x01, 0x05, 0x03, 0x1E, 0xAA, 0x06, 0x28] ∧
    (MX28.SetGoal 1 150 0 MX28.statusOKReply).ret = 0 := by decide

/-- C2: for every instruction packet built by the write, read and
trigger operations, the final byte equals `0xFF` minus the sum modulo
256 of the ID, length, instruction and parameter bytes (the bytes
between the header and the checksum), and `0xFF - checksum - sum` is
congruent to 0 modulo 256. -/
theorem c2_checksum_invariant :
    (∀ (id start : Nat) (data : List Nat) (flag : Int),
      (MX28.writePacket id start data flag).getLast! =
        0xff - ((MX28.writePacket id start data flag).drop 2).dropLast.sum % 256 ∧
      ((0xff : Int) - (MX28.writePacket id start data flag).getLast!
        - ((MX28.writePacket id start data flag).drop 2).dropLast.sum) % 256 = 0) ∧
    (∀ id start n : Nat,
      (MX28.readPacket id start n).getLast! =
        0xff - ((MX28.readPacket id start n).drop 2).dropLast.sum % 256 ∧
      ((0xff : Int) - (MX28.readPacket id start n).getLast!
        - ((MX28.readPacket id start n).drop 2).dropLast.sum) % 256 = 0) ∧
    (MX28.triggerPacket.getLast! =
        0xff - (MX28.triggerPacket.drop 2).dropLast.sum % 256 ∧
      ((0xff : Int) - MX28.triggerPacket.getLast!
        - (MX28.triggerPacket.drop 2).dropLast.sum) % 256 = 0) :=
  ⟨fun id start data flag => packet_checksum_aux (MX28.writeBody id start data flag),
   fun id start n => packet_checksum_aux (MX28.readBody id start n),
   packet_checksum_aux MX28.triggerBody⟩

/-- C3 counterexample: the receive skip of `MX28::write` is keyed on the
device object's own `_ID`, not the packet's target ID.  A write whose
target ID is the broadcast address 254, issued by a device whose own ID
is 1 (as `SetID(254, 5)` would do), still consumes a 6-byte reply and
returns the reply's error byte (here 7, not the claimed unconditional
success 0). -/
theorem c3_counterexample :
    (MX28.write 1 0xFE 0x03 [0x05] 0 (fun _ => 7)).received = 6 ∧
    (MX28.write 1 0xFE 0x03 [0x05] 0 (fun _ => 7)).ret = 7 ∧ (7 : Nat) ≠ 0 := by decide

/-- C3 amended: the receive step of a write is skipped exactly when the
device object's own bus ID is 254, not when the packet's target ID is
254.  A write by a device whose own ID is 254 reads no byte and returns
0 without inspecting any reply; a write by a device with any other own
ID consumes a 6-byte reply and returns its byte at position 4, whatever
the target ID (broadcast included). -/
theorem c3_amended (selfID id start : Nat) (data : List Nat) (flag : Int)
    (reply : Nat → Nat) :
    (MX28.write 0xFE id start data flag reply).received = 0 ∧
    (MX28.write 0xFE id start data flag reply).ret = 0 ∧
    (MX28.write selfID id start data flag reply).received =
      (if selfID = 0xFE then 0 else 6) ∧
    (MX28.write selfID id start data flag reply).ret =
      (if selfID = 0xFE then 0 else MX28.byte (reply 4)) := by
  by_cases h : selfID = 0xFE <;> simp [MX28.write, h]

/-- C4 counterexample: goal-position encoding truncates, it does not
round: at 5 degrees the code computes `(4095*5)/360 = 56` while
`round(4095*5/360) = round(56.875) = 57`. -/
theorem c4_counterexample :
    MX28.goalRaw 5 = 56 ∧ round ((4095 * 5 : ℚ) / 360) = 57 ∧ (56 : Int) ≠ 57 :=
  ⟨by decide, round_enc_at_5, by decide⟩

/-- C4 amended: goal-position encoding maps an angle to the truncated
integer quotient `(4095*degrees)/360` (so `q` satisfies
`360*q ≤ 4095*d < 360*(q+1)` for non-negative degrees), with 0 degrees
giving raw 0 and 360 degrees giving raw 4095; position decoding maps
raw bytes to the truncated quotient `raw*300/1024` (so raw 1024 decodes
to 300); the two directions use different denominators: decoding the
encoding of 150 degrees yields 499 degrees, not 150. -/
theorem c4_amended :
    MX28.goalRaw 0 = 0 ∧ MX28.goalRaw 360 = 4095 ∧
    (∀ d : Int, 0 ≤ d →
      360 * MX28.goalRaw d ≤ 4095 * d ∧ 4095 * d < 360 * (MX28.goalRaw d + 1)) ∧
    MX28.positionDecode 0 4 = 300 ∧
    MX28.goalRaw 150 = 1706 ∧ MX28.positionDecode 170 6 = 499 ∧ (499 : Int) ≠ 150 := by
  refine ⟨by decide, by decide, ?_, by decide, by decide, by decide, by decide⟩
  intro d hd
  have h0 : (0 : Int) ≤ 4095 * d := by positivity
  have ht : (4095 * d).tdiv 360 = (4095 * d) / 360 := Int.tdiv_eq_ediv h0 (by norm_num)
  have h1 := Int.ediv_add_emod (4095 * d) 360
  have h2 := Int.emod_nonneg (4095 * d) (show (360 : Int) ≠ 0 by norm_num)
  have h3 := Int.emod_lt_of_pos (4095 * d) (show (0 : Int) < 360 by norm_num)
  unfold MX28.goalRaw
  rw [ht]
  omega

/-- C4 amended witness: the truncation characterization instantiated at
150 degrees. -/
theorem c4_amended_witness :
    360 * MX28.goalRaw 150 ≤ 4095 * 150 ∧ 4095 * 150 < 360 * (MX28.goalRaw 150 + 1) :=
  c4_amended.2.2.1 150 (by norm_num)

/-- C5 counterexample: the speed magnitude is the truncation of
`0x3FF * |speed|`, not its rounding: at speed `511/1024` (exactly
representable in a float) the code computes magnitude
`trunc(510.50097...) = 510` while the claimed `round` gives 511. -/
theorem c5_counterexample :
    MX28.crSpeedRaw (511/1024) &&& 1023 = 510 ∧
    round ((0x3ff : ℚ) * |(511/1024 : ℚ)|) = 511 ∧ (510 : Nat) ≠ 511 :=
  ⟨by rw [crSpeedRaw_at_cex]; decide, round_speed_at_cex, by decide⟩

/-- C5 amended: for every speed in `[-1, 1]`, the continuous-rotation
raw word has low 10 bits equal to the truncated magnitude
`trunc(0x3FF * |speed|)` and bit 10 set exactly when the speed is
negative; speed -1 gives magnitude `0x3FF` with the direction bit set,
and speed 0.5 gives magnitude `0x1FF` (the truncation of 511.5) with
the direction bit clear. -/
theorem c5_amended (s : ℚ) (h1 : -1 ≤ s) (h2 : s ≤ 1) :
    MX28.crSpeedRaw s &&& 1023 = (⌊(0x3ff : ℚ) * |s|⌋).toNat ∧
    ((MX28.crSpeedRaw s).testBit 10 = true ↔ s < 0) ∧
    MX28.crSpeedRaw (-1) &&& 1023 = 0x3ff ∧
    (MX28.crSpeedRaw (-1)).testBit 10 = true ∧
    MX28.crSpeedRaw (1/2) = 0x1ff ∧
    (MX28.crSpeedRaw (1/2)).testBit 10 = false := by
  have habs : |s| ≤ 1 := abs_le.mpr ⟨h1, h2⟩
  have h0 : (0 : ℚ) ≤ 1023 * |s| := by positivity
  have hle : (1023 : ℚ) * |s| ≤ 1023 := by nlinarith [abs_nonneg s]
  have hfl : ⌊(1023 : ℚ) * |s|⌋ ≤ 1023 := by
    calc ⌊(1023 : ℚ) * |s|⌋ ≤ ⌊(1023 : ℚ)⌋ := Int.floor_le_floor hle
    _ = 1023 := by norm_num
  have hfl0 : 0 ≤ ⌊(1023 : ℚ) * |s|⌋ := Int.floor_nonneg.mpr h0
  have hg : (⌊(1023 : ℚ) * |s|⌋).toNat < 1024 := by omega
  obtain ⟨b1, b2, b3, b4⟩ := bits_small (⌊(1023 : ℚ) * |s|⌋).toNat hg
  refine ⟨?_, ?_, ?_, ?_, ?_, ?_⟩
  · by_cases hs : s < 0 <;>
      simp only [MX28.crSpeedRaw, ratFloor_eq, if_pos, if_neg, hs, if_true, if_false]
    · exact b1
    · exact b2
  · by_cases hs : s < 0 <;>
      simp only [MX28.crSpeedRaw, ratFloor_eq, hs, if_true, if_false]
    · simp [b3, hs]
    · simp [b4, hs]
  · rw [crSpeedRaw_neg_one]; decide
  · rw [crSpeedRaw_neg_one]; decide
  · exact crSpeedRaw_half
  · rw [crSpeedRaw_half]; decide

/-- C5 amended witness: the truncated-magnitude equation instantiated
at speed -1. -/
theorem c5_amended_witness :
    MX28.crSpeedRaw (-1) &&& 1023 = (⌊(0x3ff : ℚ) * |(-1 : ℚ)|⌋).toNat :=
  (c5_amended (-1) (by norm_num) (by norm_num)).1

/-- C6: status decoding validates nothing: for every reply byte stream,
both the write and the read paths return the byte at position 4 of the
reply (its `char` value), with the header bytes, length field and
checksum never checked; when that byte is an actual byte value it is
returned verbatim. -/
theorem c6_no_validation (selfID : Nat) (h : selfID ≠ 0xFE) :
    ∀ (id start n : Nat) (data : List Nat) (flag : Int) (garbage buf reply : Nat → Nat),
      (MX28.write selfID id start data flag reply).ret = MX28.byte (reply 4) ∧
      (MX28.read selfID id start n garbage buf reply).ret = MX28.byte (reply 4) ∧
      (reply 4 < 256 →
        (MX28.write selfID id start data flag reply).ret = reply 4 ∧
        (MX28.read selfID id start n garbage buf reply).ret = reply 4) := by
  intro id start n data flag garbage buf reply
  have h4 : (4 : Nat) < 6 + n := by omega
  have hw : (MX28.write selfID id start data flag reply).ret = MX28.byte (reply 4) := by
    simp [MX28.write, h]
  have hr : (MX28.read selfID id start n garbage buf reply).ret = MX28.byte (reply 4) := by
    simp [MX28.read, h, h4]
  exact ⟨hw, hr, fun hb => by
    rw [hw, hr, MX28.byte, Nat.mod_eq_of_lt hb]
    exact ⟨rfl, rfl⟩⟩

/-- C6 witness: a device with own ID 1 writing to register `0x1E`
against the identity reply stream returns that stream's byte 4. -/
theorem c6_no_validation_witness :
    (MX28.write 1 1 0x1E [0xAA, 0x06] 0 (fun i => i)).ret = 4 ∧
    (MX28.read 1 1 0x24 2 (fun _ => 0) (fun _ => 0) (fun i => i)).ret = 4 :=
  (c6_no_validation 1 (by decide) 1 0x1E 2 [0xAA, 0x06] 0
    (fun _ => 0) (fun _ => 0) (fun i => i)).2.2 (by decide)

/-- C7: every telemetry getter returns a value computed from the reply
payload and buffers only; the status error byte (reply position 4) has
no effect on the returned value: two reply streams that agree everywhere
except at position 4 produce identical results from `GetPosition`,
`GetTemp`, `GetVolts` and `GetCurrent`. -/
theorem c7_error_discarded (selfID : Nat) (garbage buf r r2 : Nat → Nat)
    (h : ∀ i, i ≠ 4 → r i = r2 i) :
    MX28.GetPosition selfID garbage buf r = MX28.GetPosition selfID garbage buf r2 ∧
    MX28.GetTemp selfID garbage buf r = MX28.GetTemp selfID garbage buf r2 ∧
    MX28.GetVolts selfID garbage buf r = MX28.GetVolts selfID garbage buf r2 ∧
    MX28.GetCurrent selfID garbage buf r = MX28.GetCurrent selfID garbage buf r2 := by
  have hp := read_dataOut_congr selfID selfID 0x24 2 garbage buf r r2 h
  have htm := read_dataOut_congr selfID selfID 0x2B 1 garbage buf r r2 h
  have hv := read_dataOut_congr selfID selfID 0x2A 1 garbage buf r r2 h
  have hc := read_dataOut_congr selfID selfID 0x44 2 garbage buf r r2 h
  refine ⟨?_, ?_, ?_, ?_⟩
  · simp only [MX28.GetPosition, hp]
  · simp only [MX28.GetTemp, htm]
  · simp only [MX28.GetVolts, hv]
  · simp only [MX28.GetCurrent, hc]

/-- C7 witness: swapping the error byte of an otherwise identical reply
stream leaves `GetPosition` unchanged. -/
theorem c7_error_discarded_witness :
    MX28.GetPosition 1 (fun _ => 0) (fun _ => 0) (fun i => if i = 4 then 9 else i) =
      MX28.GetPosition 1 (fun _ => 0) (fun _ => 0) (fun i => if i = 4 then 0 else i) :=
  (c7_error_discarded 1 (fun _ => 0) (fun _ => 0)
    (fun i => if i = 4 then 9 else i) (fun i => if i = 4 then 0 else i)
    (fun i hi => by simp [hi])).1

/-- C8: `SetMode(1)` (continuous rotation) writes raw 0 to the CW limit
register `0x06` and the CCW limit register `0x08` and raw 0 speed to
register `0x20`; `SetMode(0)` (positional) writes CW limit 0, CCW limit
4095 (the full 360-degree sweep, bytes `FF 0F`), and zero speed; both
return 0. -/
theorem c8_setmode :
    MX28.SetMode 1 =
      ([⟨0x06, [0, 0], 0⟩, ⟨0x08, [0, 0], 0⟩, ⟨0x20, [0, 0], 0⟩], 0) ∧
    MX28.SetMode 0 =
      ([⟨0x06, [0, 0], 0⟩, ⟨0x08, [0xFF, 0x0F], 0⟩, ⟨0x20, [0, 0], 0⟩], 0) := by
  have hcw0 : MX28.SetCWLimitOp 0 = ⟨0x06, [0, 0], 0⟩ := by decide
  have hccw0 : MX28.SetCCWLimitOp 0 = ⟨0x08, [0, 0], 0⟩ := by decide
  have hccw360 : MX28.SetCCWLimitOp 360 = ⟨0x08, [0xFF, 0x0F], 0⟩ := by decide
  have hsp : MX28.SetCRSpeedOp 0 = ⟨0x20, [0, 0], 0⟩ := by
    simp [MX28.SetCRSpeedOp, MX28.crSpeedData, crSpeedRaw_zero, MX28.byte]
  constructor <;> simp [MX28.SetMode, hcw0, hccw0, hccw360, hsp]

/-- C9: a device object constructed with its own bus ID equal to the
broadcast address 254 transmits the read instruction packet on every
`read` call, consumes no reply byte, leaves the caller's data buffer
unmodified, and returns the sentinel 0xFE, which is not the success
code 0. -/
theorem c9_broadcast_read (id start n : Nat) (garbage buf reply : Nat → Nat) :
    (MX28.read 0xFE id start n garbage buf reply).sent = MX28.readPacket id start n ∧
    (MX28.read 0xFE id start n garbage buf reply).received = 0 ∧
    (MX28.read 0xFE id start n garbage buf reply).dataOut = buf ∧
    (MX28.read 0xFE id start n garbage buf reply).ret = 0xFE ∧ (0xFE : Nat) ≠ 0 := by
  simp [MX28.read]

/-- C10: `SetGoal` treats its flag argument as exact values, not bits:
the staged reg-write instruction `0x04` is transmitted exactly when the
flags equal 2, the busy-wait runs exactly when the flags equal 1, and
flags = 3 (both bits set) produces a plain immediate write `0x03` with
no blocking. -/
theorem c10_flag_semantics (selfID : Nat) (degrees : Int) (reply : Nat → Nat) :
    (MX28.SetGoal selfID degrees 3 reply).sent.getD 4 0 = 0x03 ∧
    (MX28.SetGoal selfID degrees 3 reply).blocks = false ∧
    (∀ flags : Int,
      ((MX28.SetGoal selfID degrees flags reply).sent.getD 4 0 = 0x04 ↔ flags = 2)) ∧
    (∀ flags : Int,
      ((MX28.SetGoal selfID degrees flags reply).blocks = true ↔ flags = 1)) := by
  refine ⟨?_, ?_, ?_, ?_⟩
  · simp [MX28.SetGoal, MX28.write, MX28.writePacket, MX28.writeBody, MX28.writeInstr]
    split
    · rfl
    · rfl
  · simp [MX28.SetGoal]
  · intro flags
    simp [MX28.SetGoal, MX28.write, MX28.writePacket, MX28.writeBody, MX28.writeInstr]
    constructor
    · intro h
      by_cases h2 : flags = 2
      · exact h2
      · simp [h2] at h
        split at h <;> simp_all
    · intro h
      simp [h]
      split <;> rfl
  · intro flags
    simp [MX28.SetGoal]
